import Mathlib

/-!
Verification of the NestTask client-side data synchronization and caching
layer against its specification.

Two components are embedded here, straight from the TypeScript source:

* the in-memory cache utility of `src/service-worker.ts`
  (`setCache`, `getCache`, `isCacheValid`, `invalidateCache`,
  `clearCacheByPrefix`, `clearAllCache`, `updateCachedField`), modelled as an
  association list from string keys to `{ data, timestamp }` entries, with
  the wall clock passed explicitly as an integer `now`;

* the `useTasks` hook of `src/hooks/useTasks.ts` (`loadTasks` and the
  mutation handlers `handleCreateTask` / `handleUpdateTask` /
  `handleDeleteTask`), modelled as explicit state-passing functions over a
  `HookState` record holding the React state (`tasks`, `loading`, `error`,
  `retryCount`) together with the refs (`loadingRef`, `lastLoadTimeRef`,
  `tabSwitchRecoveryRef`) and the module-level `tasksCache`.  The
  asynchronous structure is captured by splitting `loadTasks` at its await
  points: `loadPhase1` is the synchronous prefix up to `loadingRef.current =
  true` (returning the decision taken), `onFetchSuccess` is the body of the
  `try` after `Promise.race` resolves, and `onFetchFailure` is the `catch`
  block.  Remote-call outcomes, the mounted flag and abort flags are
  explicit parameters; timers are modelled as events.  An event trace
  (`runTrace`) replays an interleaving of load calls, completions and timer
  firings, counting how many loads proceeded to a network fetch.
-/

namespace NestTask

/-- A memory-cache entry of `service-worker.ts`: the stored data together
with the `Date.now()` timestamp at which it was written. -/
structure CacheEntry (α : Type) where
  data : α
  timestamp : Int
deriving DecidableEq

/-- Association-list lookup: the model of reading `memoryCache[key]` (and of
`Map.prototype.get`). -/
def alookup {α : Type} : List (String × α) → String → Option α
  | [], _ => none
  | (k, v) :: rest, key => if k = key then some v else alookup rest key

/-- Remove every binding of `key`: the model of `delete memoryCache[key]`
(and of `Map.prototype.delete`). -/
def aerase {α : Type} (m : List (String × α)) (key : String) : List (String × α) :=
  m.filter (fun p => !(p.1 == key))

/-- Bind `key` to `v`, overwriting any prior binding: the model of
`memoryCache[key] = v` (and of `Map.prototype.set`). -/
def aset {α : Type} (m : List (String × α)) (key : String) (v : α) : List (String × α) :=
  (key, v) :: aerase m key

/-- The module-level `memoryCache: Record<string, any>` of
`service-worker.ts`, specialised to entries holding values of type `α`. -/
abbrev MemoryCache (α : Type) := List (String × CacheEntry α)

/-- `setCache(key, data)`: store `data` under `key` with the current
timestamp (`memoryCache[key] = { data, timestamp: Date.now() }`). -/
def setCache {α : Type} (m : MemoryCache α) (key : String) (data : α) (now : Int) :
    MemoryCache α :=
  aset m key ⟨data, now⟩

/-- `getCache(key)`: the stored value regardless of age, or `none` for the
source's `null`. -/
def getCache {α : Type} (m : MemoryCache α) (key : String) : Option α :=
  (alookup m key).map CacheEntry.data

/-- `isCacheValid(key, maxAge?)`.  The source reads `if (maxAge) { return
age < maxAge } return true`: the age comparison runs only when `maxAge` is
present and truthy, i.e. a nonzero number; `maxAge = 0` or omitted reports
any existing entry valid. -/
def isCacheValid {α : Type} (m : MemoryCache α) (key : String) (maxAge : Option Int)
    (now : Int) : Bool :=
  match alookup m key with
  | none => false
  | some cached =>
    match maxAge with
    | none => true
    | some ma => if ma ≠ 0 then decide (now - cached.timestamp < ma) else true

/-- `invalidateCache(key)`: remove a single entry (`delete memoryCache[key]`). -/
def invalidateCache {α : Type} (m : MemoryCache α) (key : String) : MemoryCache α :=
  aerase m key

/-- JS `key.startsWith(prefix)`, modelled on the character list (the
library `String.startsWith` is byte-position based and does not reduce in
the kernel). -/
def strStartsWith (s pre : String) : Bool :=
  pre.data.isPrefixOf s.data

/-- `clearCacheByPrefix(prefix)`: delete every key that starts with the
given string. -/
def clearCacheByPrefix {α : Type} (m : MemoryCache α) (pre : String) : MemoryCache α :=
  m.filter (fun p => !(strStartsWith p.1 pre))

/-- `clearAllCache()`: empty the store. -/
def clearAllCache {α : Type} (_m : MemoryCache α) : MemoryCache α := []

/-- Object spread `{ ...o, [field]: v }` on a record viewed as a total map
from field names to values: the named field gets `v`, every other field
keeps its old value. -/
def objSet {β : Type} (o : String → β) (field : String) (v : β) : String → β :=
  fun g => if g = field then v else o g

/-- `updateCachedField(key, field, value)`: read the cached object, and when
present store a copy with the one field replaced via `setCache` (which
stamps the current time); when absent do nothing. -/
def updateCachedField {β : Type} (m : MemoryCache (String → β)) (key field : String)
    (v : β) (now : Int) : MemoryCache (String → β) :=
  match getCache m key with
  | some cached => setCache m key (objSet cached field v) now
  | none => m

/-- A task record; only the fields the synchronization layer inspects are
kept (`id` for update/delete matching, `title` as payload). -/
structure Task where
  id : String
  title : String
deriving DecidableEq

/-- A `tasksCache` entry of `useTasks.ts`: `{ tasks, timestamp }`. -/
structure TasksEntry where
  tasks : List Task
  timestamp : Int
deriving DecidableEq

/-- The module-level `tasksCache: Map<string, { tasks, timestamp }>` keyed
by user id. -/
abbrev TasksCache := List (String × TasksEntry)

/-- `CACHE_TTL = 5 * 60 * 1000`. -/
def CACHE_TTL : Int := 5 * 60 * 1000

/-- `TASK_FETCH_TIMEOUT = 45000`. -/
def TASK_FETCH_TIMEOUT : Nat := 45000

/-- `MAX_RETRIES_TIMEOUT = 5`. -/
def MAX_RETRIES_TIMEOUT : Nat := 5

/-- `MAX_RETRIES_OTHER = 3`. -/
def MAX_RETRIES_OTHER : Nat := 3

/-- The per-hook-instance state of `useTasks`: the four `useState` cells
(`tasks`, `loading`, `error`, `retryCount`), the refs `loadingRef`,
`lastLoadTimeRef` and `tabSwitchRecoveryRef`, and the module-level
`tasksCache`. -/
structure HookState where
  tasks : List Task
  loading : Bool
  error : Option String
  retryCount : Nat
  loadingRef : Bool
  lastLoadTime : Int
  tabSwitchRecovery : Bool
  cache : TasksCache
deriving DecidableEq

/-- The `useState` initialisers of `useTasks` together with the initial ref
values: `tasks = []`, `loading = true`, `error = null`, `retryCount = 0`,
`loadingRef = false`, `lastLoadTimeRef = 0`, `tabSwitchRecoveryRef = false`. -/
def initialHookState : HookState :=
  { tasks := [], loading := true, error := none, retryCount := 0,
    loadingRef := false, lastLoadTime := 0, tabSwitchRecovery := false, cache := [] }

/-- The throttle window of `loadTasks`: 1000 ms in tab-switch recovery mode,
3000 ms otherwise. -/
def throttleFor (recovery : Bool) : Int :=
  if recovery then 1000 else 3000

/-- What the synchronous prefix of `loadTasks` decided to do. -/
inductive LoadDecision where
  | noUser
  | skipInFlight
  | skipThrottle
  | serveFreshCache
  | startFetch
deriving DecidableEq

/-- Lines 103-111 of `loadTasks`, reached when the guards let the load
proceed: `setLoading(true)` when there is no cached entry or the load is
forced (and the component is mounted), then `loadingRef.current = true` and
`setError(null)`. -/
def startFetchState (st : HookState) (uid : String) (force mounted : Bool) :
    LoadDecision × HookState :=
  let st1 := if ((alookup st.cache uid).isNone || force) && mounted then
      { st with loading := true }
    else st
  let st2 := { st1 with loadingRef := true }
  let st3 := if mounted then { st2 with error := none } else st2
  (.startFetch, st3)

/-- The synchronous prefix of `loadTasks` (lines 48-111): return on a
missing user id; on `force`, enter recovery mode and reset the retry
counter; skip when a request is in flight and the call is not forced; skip
when the last load was less than the throttle window ago; on a non-forced
call with a cached entry, serve it and stop when fresh, or show it and fall
through to a background fetch when stale; otherwise proceed to the fetch. -/
def loadPhase1 (st : HookState) (userId : Option String) (force mounted : Bool)
    (now : Int) : LoadDecision × HookState :=
  match userId with
  | none => (.noUser, st)
  | some uid =>
    let st1 := if force then
        { st with tabSwitchRecovery := true,
                  retryCount := if mounted then 0 else st.retryCount }
      else st
    if st1.loadingRef && !force then (.skipInFlight, st1)
    else if !force && decide (now - st1.lastLoadTime < throttleFor st1.tabSwitchRecovery) then
      (.skipThrottle, st1)
    else
      match (if force then none else alookup st1.cache uid) with
      | some cachedData =>
        if decide (now - cachedData.timestamp < CACHE_TTL) then
          (.serveFreshCache,
            if mounted then
              { st1 with tasks := cachedData.tasks, loading := false, error := none }
            else st1)
        else
          startFetchState (if mounted then { st1 with tasks := cachedData.tasks } else st1)
            uid force mounted
      | none => startFetchState st1 uid force mounted

/-- The success path of `loadTasks` (lines 172-185): guarded by
`isMountedRef.current && !signal.aborted`, where `signal` is the abort
signal captured by this very load; replace the tasks, write through to the
cache, clear the error, record the last-success time, reset the retry
counter and leave recovery mode. -/
def onFetchSuccess (st : HookState) (uid : String) (mounted signalAborted : Bool)
    (data : List Task) (now : Int) : HookState :=
  if mounted = true ∧ signalAborted = false then
    { st with tasks := data,
              cache := aset st.cache uid ⟨data, now⟩,
              error := none,
              lastLoadTime := now,
              retryCount := 0,
              tabSwitchRecovery := false }
  else st

/-- `min(1000 * Math.pow(2, retryCount) + randomOffset, 15000)`: the
scheduled retry delay, with `randomOffset = Math.floor(Math.random() * 1000)`
passed in as `jitter`. -/
def retryDelay (rc jitter : Nat) : Nat :=
  min (1000 * 2 ^ rc + jitter) 15000

/-- The retry budget: `MAX_RETRIES_TIMEOUT` for a timeout failure,
`MAX_RETRIES_OTHER` otherwise. -/
def maxRetriesFor (errMsg : String) : Nat :=
  if errMsg = "Task fetch timeout" then MAX_RETRIES_TIMEOUT else MAX_RETRIES_OTHER

/-- The common head of both stale-data warnings. -/
def staleMsgHead : String := "Using cached data. Failed to refresh: "

/-- The stale-data warning set by the `catch` block when a cached value is
shown: the timeout variant names the `TASK_FETCH_TIMEOUT` threshold in
seconds, the generic variant carries `err.message || 'Unknown error'`. -/
def staleErrorMsg (errMsg : String) : String :=
  if errMsg = "Task fetch timeout" then
    staleMsgHead ++ "Task fetch timeout after " ++
      toString (TASK_FETCH_TIMEOUT / 1000) ++
      "s. Network may be slow or server overloaded."
  else
    staleMsgHead ++ (if errMsg = "" then "Unknown error" else errMsg)

/-- The state after line 203 of the `catch` block with no cached fallback:
`setError(err.message || 'Failed to load tasks')`. -/
def failureBaseState (st : HookState) (errMsg : String) : HookState :=
  { st with error := some (if errMsg = "" then "Failed to load tasks" else errMsg) }

/-- The `catch` block of `loadTasks` (lines 186-227).  Its guard reads
`isMountedRef.current && (!abortControllerRef.current ||
!abortControllerRef.current.signal.aborted)`: unlike the success path it
consults the abort signal of whatever controller is current at failure
time — `currentAborted` here — not the signal captured by this load.  With
a cached entry, fall back to it and surface a stale-data warning
(distinguishing timeouts); with no cache, surface the error and, when
online and budget remains, schedule a retry of `retryDelay` milliseconds
(returned as the second component), or enter recovery mode once the budget
is exhausted. -/
def onFetchFailure (st : HookState) (uid : String) (mounted : Bool)
    (currentAborted : Option Bool) (errMsg : String) (isOffline : Bool)
    (jitter : Nat) : HookState × Option Nat :=
  if mounted = true ∧ (currentAborted = none ∨ currentAborted = some false) then
    match alookup st.cache uid with
    | some cachedData =>
      ({ st with tasks := cachedData.tasks, error := some (staleErrorMsg errMsg) }, none)
    | none =>
      if isOffline = false ∧ st.retryCount < maxRetriesFor errMsg then
        (failureBaseState st errMsg, some (retryDelay st.retryCount jitter))
      else if st.retryCount ≥ maxRetriesFor errMsg then
        ({ failureBaseState st errMsg with tabSwitchRecovery := true }, none)
      else (failureBaseState st errMsg, none)
  else (st, none)

/-- One failure round followed by the scheduled retry timer firing (the
`setTimeout` callback runs `setRetryCount(prev => prev + 1)`): when the
failure scheduled a retry the counter is incremented, otherwise the state is
left as the failure handler produced it.  Models repeated fetch failures
with an empty cache. -/
def failRetryStep (uid errMsg : String) (isOffline : Bool) (jitter : Nat)
    (st : HookState) : HookState :=
  let r := onFetchFailure st uid true none errMsg isOffline jitter
  match r.2 with
  | some _ => { r.1 with retryCount := r.1.retryCount + 1 }
  | none => r.1

/-- An observable event of the hook's event loop, for a mounted component:
a `loadTasks` call, an effective fetch completion (success or failure), the
retry timer firing, and the 100 ms grace timer that clears
`loadingRef.current` after a completion. -/
inductive HookEvent where
  | load (now : Int) (force : Bool)
  | succeed (data : List Task) (now : Int)
  | fail (errMsg : String) (isOffline : Bool) (jitter : Nat) (currentAborted : Option Bool)
  | retryFire
  | clearInFlight
deriving DecidableEq

/-- One event against the hook state; the second component counts whether a
network fetch was started (a `load` that reached `startFetch`).  Completions
also run the `finally` block's `setLoading(false)`. -/
def step (uid : String) (st : HookState) (e : HookEvent) : HookState × Nat :=
  match e with
  | .load now force =>
    let r := loadPhase1 st (some uid) force true now
    (r.2, if r.1 = .startFetch then 1 else 0)
  | .succeed data now =>
    ({ onFetchSuccess st uid true false data now with loading := false }, 0)
  | .fail errMsg off j cc =>
    ({ (onFetchFailure st uid true cc errMsg off j).1 with loading := false }, 0)
  | .retryFire => ({ st with retryCount := st.retryCount + 1 }, 0)
  | .clearInFlight => ({ st with loadingRef := false }, 0)

/-- Replay a list of events, accumulating the number of network fetches
started. -/
def runTrace (uid : String) (st : HookState) : List HookEvent → HookState × Nat
  | [] => (st, 0)
  | e :: es =>
    let r := step uid st e
    let rest := runTrace uid r.1 es
    (rest.1, r.2 + rest.2)

/-- The events of a batch of concurrent, non-forced load calls: every load
carries `force = false`, and no completion's grace timer has fired yet
(`clearInFlight` has not run), so every load is issued while any started
fetch is still marked in flight. -/
def evOk : HookEvent → Bool
  | .load _ force => !force
  | .clearInFlight => false
  | _ => true

/-- The result of a mutation handler: what the caller gets (`throw`
modelled as `Except.error`), the state afterwards, and how many calls
reached the external data source. -/
structure MutResult (α : Type) where
  result : Except String α
  state : HookState
  remoteCalls : Nat

/-- Object spread `{ ...task, ...updatedTask }` where `updatedTask` is a
complete `Task` record returned by the service: every field comes from
`updatedTask`. -/
def mergeTask (_t upd : Task) : Task := upd

/-- `handleCreateTask` (lines 340-368): throw at once when offline or when
the user id is missing; otherwise call the remote `createTask`, and only on
its success — and only while mounted — append the created task to the local
list and to the cached entry (when one exists); a remote error is rethrown
with no state change. -/
def handleCreateTask (isOffline : Bool) (userId : Option String) (mounted : Bool)
    (remote : Except String Task) (st : HookState) (now : Int) : MutResult Task :=
  if isOffline then ⟨.error "Cannot create tasks while offline", st, 0⟩
  else
    match userId with
    | none => ⟨.error "User ID is required", st, 0⟩
    | some uid =>
      match remote with
      | .error e => ⟨.error e, st, 1⟩
      | .ok createdTask =>
        let st1 := if mounted then
            let st2 := { st with tasks := st.tasks ++ [createdTask] }
            match alookup st2.cache uid with
            | some cachedData =>
              let entry : TasksEntry := ⟨cachedData.tasks ++ [createdTask], now⟩
              { st2 with cache := aset st2.cache uid entry }
            | none => st2
          else st
        ⟨.ok createdTask, st1, 1⟩

/-- `handleUpdateTask` (lines 370-399): throw at once when offline;
otherwise call the remote `updateTask`, and only on its success — and only
while mounted — merge the returned task over the matching item in the local
list and in the cached entry (when the user id is known and cached); a
remote error is rethrown with no state change. -/
def handleUpdateTask (isOffline : Bool) (userId : Option String) (mounted : Bool)
    (taskId : String) (remote : Except String Task) (st : HookState) (now : Int) :
    MutResult Task :=
  if isOffline then ⟨.error "Cannot update tasks while offline", st, 0⟩
  else
    match remote with
    | .error e => ⟨.error e, st, 1⟩
    | .ok updatedTask =>
      let st1 := if mounted then
          let st2 := { st with tasks := st.tasks.map (fun t =>
              if t.id = taskId then mergeTask t updatedTask else t) }
          match userId with
          | some uid =>
            match alookup st2.cache uid with
            | some cachedData =>
              let entry : TasksEntry := ⟨cachedData.tasks.map (fun t =>
                  if t.id = taskId then mergeTask t updatedTask else t), now⟩
              { st2 with cache := aset st2.cache uid entry }
            | none => st2
          | none => st2
        else st
      ⟨.ok updatedTask, st1, 1⟩

/-- `handleDeleteTask` (lines 401-426): throw at once when offline;
otherwise call the remote `deleteTask`, and only on its success — and only
while mounted — drop the task from the local list and from the cached entry
(when the user id is known and cached), returning `true`; a remote error is
rethrown with no state change. -/
def handleDeleteTask (isOffline : Bool) (userId : Option String) (mounted : Bool)
    (taskId : String) (remote : Except String Unit) (st : HookState) (now : Int) :
    MutResult Bool :=
  if isOffline then ⟨.error "Cannot delete tasks while offline", st, 0⟩
  else
    match remote with
    | .error e => ⟨.error e, st, 1⟩
    | .ok _ =>
      let st1 := if mounted then
          let st2 := { st with tasks := st.tasks.filter (fun t => !(t.id == taskId)) }
          match userId with
          | some uid =>
            match alookup st2.cache uid with
            | some cachedData =>
              let entry : TasksEntry := ⟨cachedData.tasks.filter (fun t => !(t.id == taskId)), now⟩
              { st2 with cache := aset st2.cache uid entry }
            | none => st2
          | none => st2
        else st
      ⟨.ok true, st1, 1⟩

theorem alookup_filterKeys {α : Type} (q : String → Bool) (m : List (String × α))
    (key : String) :
    alookup (m.filter (fun p => q p.1)) key
      = if q key = true then alookup m key else none := by
  induction m with
  | nil => cases hq : q key <;> simp [alookup, hq]
  | cons hd tl ih =>
    obtain ⟨a, b⟩ := hd
    by_cases hq : q a = true
    · rw [List.filter_cons_of_pos (by simpa using hq)]
      by_cases hk : a = key
      · subst hk
        simp [alookup, hq]
      · simp only [alookup, if_neg hk]
        exact ih
    · rw [List.filter_cons_of_neg (by simpa using hq)]
      by_cases hk : a = key
      · subst hk
        simp only [ih, alookup, if_pos rfl]
        simp [Bool.eq_false_iff.mpr hq]
      · simp only [ih, alookup, if_neg hk]

theorem alookup_aerase {α : Type} (m : List (String × α)) (key k' : String)
    (h : k' ≠ key) : alookup (aerase m key) k' = alookup m k' := by
  have := alookup_filterKeys (fun s => !(s == key)) m k'
  simp only [aerase]
  rw [this, if_pos (by simpa using h)]

theorem alookup_aset_self {α : Type} (m : List (String × α)) (key : String) (v : α) :
    alookup (aset m key v) key = some v := by
  simp [aset, alookup]

theorem alookup_aset_ne {α : Type} (m : List (String × α)) (key k' : String) (v : α)
    (h : k' ≠ key) : alookup (aset m key v) k' = alookup m k' := by
  have h1 : alookup (aset m key v) k' = alookup (aerase m key) k' := by
    simp only [aset, alookup]
    rw [if_neg (fun e => h e.symm)]
  rw [h1]
  exact alookup_aerase m key k' h

/-- C8: `clearCacheByPrefix(prefix)` removes exactly the entries whose key
starts with `prefix`: afterwards every key beginning with the given string
has no entry, and every other key maps to exactly the entry (data and
timestamp) it mapped to before. -/
theorem clearCacheByPrefix_removes_exactly {α : Type} (m : MemoryCache α)
    (pre key : String) :
    (strStartsWith key pre = true → alookup (clearCacheByPrefix m pre) key = none)
    ∧ (strStartsWith key pre = false →
        alookup (clearCacheByPrefix m pre) key = alookup m key) := by
  have := alookup_filterKeys (fun s => !(strStartsWith s pre)) m key
  simp only [clearCacheByPrefix]
  constructor
  · intro h
    rw [this, if_neg (by simp [h])]
  · intro h
    rw [this, if_pos (by simp [h])]

/-- Witness for C8: on a two-entry cache, clearing the "tasks:" keys removes
"tasks:u1" and leaves "courses:u1" with its original entry. -/
theorem clearCacheByPrefix_removes_exactly_witness :
    alookup (clearCacheByPrefix
        [("tasks:u1", (⟨1, 0⟩ : CacheEntry Int)), ("courses:u1", ⟨2, 3⟩)] "tasks:")
      "tasks:u1" = none
    ∧ alookup (clearCacheByPrefix
        [("tasks:u1", (⟨1, 0⟩ : CacheEntry Int)), ("courses:u1", ⟨2, 3⟩)] "tasks:")
      "courses:u1"
      = alookup [("tasks:u1", (⟨1, 0⟩ : CacheEntry Int)), ("courses:u1", ⟨2, 3⟩)]
          "courses:u1" :=
  ⟨(clearCacheByPrefix_removes_exactly _ "tasks:" "tasks:u1").1 (by decide),
   (clearCacheByPrefix_removes_exactly _ "tasks:" "courses:u1").2 (by decide)⟩

/-- C3 counterexample: with an entry 10 ms old and `maxAge = 0`, the claimed
equivalence fails — the entry exists, `now - timestamp < maxAge` is false
(10 < 0 does not hold), yet `isCacheValid` returns true, because the
source's `if (maxAge)` treats 0 as falsy and skips the age comparison. -/
theorem isCacheValid_zero_maxAge_cex :
    alookup [("k", (⟨0, 0⟩ : CacheEntry Int))] "k" = some ⟨0, 0⟩
    ∧ isCacheValid [("k", (⟨0, 0⟩ : CacheEntry Int))] "k" (some 0) 10 = true
    ∧ ¬((10 : Int) - 0 < 0) :=
  ⟨rfl, rfl, by decide⟩

/-- C3 (amended): for every NONZERO `maxAge`, `isCacheValid(key, maxAge)`
returns true iff an entry exists for the key and `now - entry.timestamp <
maxAge`; equivalently, after `set(k, v)` at time T it is valid at exactly
the query times with `now < T + maxAge`.  (At `maxAge = 0` — or omitted —
the source skips the age comparison and reports any existing entry valid,
so the claim's "every maxAge value" fails at 0.) -/
theorem isCacheValid_nonzero_maxAge (α : Type) (m : MemoryCache α) (key : String)
    (now ma : Int) (hma : ma ≠ 0) :
    (isCacheValid m key (some ma) now = true ↔
      ∃ e, alookup m key = some e ∧ now - e.timestamp < ma)
    ∧ ∀ (v : α) (T : Int),
        (isCacheValid (setCache m key v T) key (some ma) now = true ↔ now < T + ma) := by
  constructor
  · unfold isCacheValid
    cases h : alookup m key with
    | none => simp
    | some e => simp [hma]
  · intro v T
    unfold isCacheValid
    rw [show alookup (setCache m key v T) key = some ⟨v, T⟩ from
      alookup_aset_self m key ⟨v, T⟩]
    simp only [if_pos hma, decide_eq_true_eq]
    omega

/-- Witness for C3 (amended): a 1 ms-old entry under `maxAge = 5` at time
101 is valid, and after `set` at any time T the key is valid at time 101
iff 101 < T + 5. -/
theorem isCacheValid_nonzero_maxAge_witness :
    ((isCacheValid [("k", (⟨7, 100⟩ : CacheEntry Int))] "k" (some 5) 101 = true ↔
      ∃ e, alookup [("k", (⟨7, 100⟩ : CacheEntry Int))] "k" = some e
        ∧ (101 : Int) - e.timestamp < 5)
    ∧ ∀ (v : Int) (T : Int),
        (isCacheValid (setCache [("k", (⟨7, 100⟩ : CacheEntry Int))] "k" v T) "k"
          (some 5) 101 = true ↔ (101 : Int) < T + 5)) :=
  isCacheValid_nonzero_maxAge Int [("k", ⟨7, 100⟩)] "k" 101 5 (by decide)

/-- C9: with `maxAge` omitted (`undefined`) or equal to 0, the validity
check reports true exactly when an entry exists for the key, regardless of
the entry's age — the age comparison runs only for a truthy (nonzero)
`maxAge`. -/
theorem isCacheValid_omitted_or_zero (α : Type) (m : MemoryCache α) (key : String)
    (now : Int) :
    isCacheValid m key none now = (alookup m key).isSome
    ∧ isCacheValid m key (some 0) now = (alookup m key).isSome := by
  unfold isCacheValid
  cases alookup m key <;> simp

/-- C10: when an entry exists for the key, `updateCachedField(key, field,
value)` stores a copy of the object with exactly the named field set to the
new value (all other fields unchanged) under a timestamp reset to the
current time — so the patched entry is fresh again under any positive
`maxAge`; other keys are untouched; when no entry exists, the store is left
entirely unchanged. -/
theorem updateCachedField_patches_one_field {β : Type} (m : MemoryCache (String → β))
    (key field : String) (v : β) (now : Int) :
    (∀ e, alookup m key = some e →
      alookup (updateCachedField m key field v now) key
        = some ⟨objSet e.data field v, now⟩
      ∧ objSet e.data field v field = v
      ∧ (∀ g, g ≠ field → objSet e.data field v g = e.data g)
      ∧ ∀ ma : Int, 0 < ma →
          isCacheValid (updateCachedField m key field v now) key (some ma) now = true)
    ∧ (∀ k', k' ≠ key →
        alookup (updateCachedField m key field v now) k' = alookup m k')
    ∧ (alookup m key = none → updateCachedField m key field v now = m) := by
  refine ⟨?_, ?_, ?_⟩
  · intro e he
    have hup : updateCachedField m key field v now
        = setCache m key (objSet e.data field v) now := by
      unfold updateCachedField getCache
      rw [he]
      rfl
    have hl : alookup (updateCachedField m key field v now) key
        = some ⟨objSet e.data field v, now⟩ := by
      rw [hup]; exact alookup_aset_self m key _
    refine ⟨hl, by simp [objSet], fun g hg => by simp [objSet, hg], fun ma hma => ?_⟩
    unfold isCacheValid
    rw [hl]
    simp only [if_pos (by omega : ma ≠ 0), decide_eq_true_eq]
    omega
  · intro k' hk
    unfold updateCachedField getCache
    cases h : alookup m key with
    | none => rfl
    | some e => exact alookup_aset_ne m key k' _ hk
  · intro h
    unfold updateCachedField getCache
    rw [h]
    rfl

/-- Witness for C10: patching field "role" of a cached one-field object at
time 50 yields the patched object stamped 50. -/
theorem updateCachedField_patches_one_field_witness :
    alookup (updateCachedField
        [("user:1", (⟨fun _ => (0 : Nat), 5⟩ : CacheEntry (String → Nat)))]
        "user:1" "role" 7 50) "user:1"
      = some ⟨objSet (fun _ => (0 : Nat)) "role" 7, 50⟩ :=
  ((updateCachedField_patches_one_field
      [("user:1", ⟨fun _ => (0 : Nat), 5⟩)] "user:1" "role" 7 50).1
    ⟨fun _ => 0, 5⟩ rfl).1

theorem onFetchFailure_cached (st : HookState) (uid : String) (cc : Option Bool)
    (errMsg : String) (off : Bool) (j : Nat) (cd : TasksEntry)
    (hcc : cc = none ∨ cc = some false)
    (hcache : alookup st.cache uid = some cd) :
    (onFetchFailure st uid true cc errMsg off j).1
      = { st with tasks := cd.tasks, error := some (staleErrorMsg errMsg) }
    ∧ (onFetchFailure st uid true cc errMsg off j).2 = none := by
  unfold onFetchFailure
  rw [if_pos ⟨rfl, hcc⟩, hcache]
  exact ⟨rfl, rfl⟩

/-- C7: if the remote fetch rejects while a cached value exists for the
subject, the visible items equal the last cached value and the error field
is non-null; the message begins with the stale-data notice "Using cached
data. Failed to refresh: ", and for a timeout failure it is exactly the
message naming the 45 s threshold. -/
theorem stale_serves_on_failure (st : HookState) (uid : String) (cd : TasksEntry)
    (cc : Option Bool) (errMsg : String) (off : Bool) (j : Nat)
    (hcc : cc = none ∨ cc = some false)
    (hcache : alookup st.cache uid = some cd) :
    (onFetchFailure st uid true cc errMsg off j).1.tasks = cd.tasks
    ∧ (onFetchFailure st uid true cc errMsg off j).1.error ≠ none
    ∧ (∃ tl, (onFetchFailure st uid true cc errMsg off j).1.error
        = some (staleMsgHead ++ tl))
    ∧ (errMsg = "Task fetch timeout" →
        (onFetchFailure st uid true cc errMsg off j).1.error
          = some (staleMsgHead ++
              "Task fetch timeout after 45s. Network may be slow or server overloaded.")) := by
  obtain ⟨h1, -⟩ := onFetchFailure_cached st uid cc errMsg off j cd hcc hcache
  rw [h1]
  refine ⟨rfl, by simp, ?_, ?_⟩
  · by_cases ht : errMsg = "Task fetch timeout"
    · refine ⟨"Task fetch timeout after 45s. Network may be slow or server overloaded.", ?_⟩
      rw [ht]
      rfl
    · exact ⟨(if errMsg = "" then "Unknown error" else errMsg),
        by rw [show staleErrorMsg errMsg
            = staleMsgHead ++ (if errMsg = "" then "Unknown error" else errMsg) from
          by unfold staleErrorMsg; rw [if_neg ht]]⟩
  · intro ht
    rw [ht]
    rfl

/-- Witness for C7: a concrete state caching one task for "u1"; a timeout
failure falls back to the cached task and surfaces the 45 s stale-data
message. -/
theorem stale_serves_on_failure_witness :
    (onFetchFailure { initialHookState with cache := [("u1", ⟨[⟨"t1", "a"⟩], 0⟩)] }
        "u1" true none "Task fetch timeout" false 0).1.tasks
      = (⟨[⟨"t1", "a"⟩], 0⟩ : TasksEntry).tasks
    ∧ (onFetchFailure { initialHookState with cache := [("u1", ⟨[⟨"t1", "a"⟩], 0⟩)] }
        "u1" true none "Task fetch timeout" false 0).1.error ≠ none
    ∧ (∃ tl, (onFetchFailure { initialHookState with cache := [("u1", ⟨[⟨"t1", "a"⟩], 0⟩)] }
        "u1" true none "Task fetch timeout" false 0).1.error
        = some (staleMsgHead ++ tl))
    ∧ ("Task fetch timeout" = "Task fetch timeout" →
        (onFetchFailure { initialHookState with cache := [("u1", ⟨[⟨"t1", "a"⟩], 0⟩)] }
          "u1" true none "Task fetch timeout" false 0).1.error
          = some (staleMsgHead ++
              "Task fetch timeout after 45s. Network may be slow or server overloaded.")) :=
  stale_serves_on_failure _ "u1" ⟨[⟨"t1", "a"⟩], 0⟩ none "Task fetch timeout" false 0
    (Or.inl rfl) rfl

/-- C2 exhibits a code bug, witnessed here on the embedding.  The success
path of `loadTasks` checks the abort signal captured by this load
(`!signal.aborted`), so a superseded load's success mutates nothing — last
conjunct.  The `catch` path instead checks
`abortControllerRef.current.signal.aborted`: when a newer load has
superseded this one, `abortControllerRef.current` is the newer load's fresh
controller, which is NOT aborted, so the superseded load's failure handler
still runs — it overwrites the error field and schedules a retry (first
three conjuncts), contradicting the claim (and the source's own comment
"Only update error state if component is mounted and not aborted"). -/
theorem superseded_failure_still_mutates :
    (onFetchFailure { initialHookState with loadingRef := true } "u1" true (some false)
        "Task fetch timeout" false 0).1.error = some "Task fetch timeout"
    ∧ ({ initialHookState with loadingRef := true } : HookState).error = none
    ∧ (onFetchFailure { initialHookState with loadingRef := true } "u1" true (some false)
        "Task fetch timeout" false 0).2 = some 1000
    ∧ onFetchSuccess { initialHookState with loadingRef := true } "u1" true true
        [⟨"t1", "a"⟩] 5 = { initialHookState with loadingRef := true } := by
  refine ⟨rfl, rfl, rfl, rfl⟩

/-- C5: while the connectivity signal reports offline, each of
create/update/delete rejects immediately with its own distinct offline
error, performs zero calls to the external data source, and leaves the
whole hook state (items, cache, error) unchanged. -/
theorem offline_blocks_mutations (u : Option String) (mounted : Bool)
    (rC rU : Except String Task) (rD : Except String Unit) (st : HookState)
    (now : Int) (taskId : String) :
    handleCreateTask true u mounted rC st now
      = ⟨Except.error "Cannot create tasks while offline", st, 0⟩
    ∧ handleUpdateTask true u mounted taskId rU st now
      = ⟨Except.error "Cannot update tasks while offline", st, 0⟩
    ∧ handleDeleteTask true u mounted taskId rD st now
      = ⟨Except.error "Cannot delete tasks while offline", st, 0⟩
    ∧ ("Cannot create tasks while offline" : String) ≠ "Cannot update tasks while offline"
    ∧ ("Cannot create tasks while offline" : String) ≠ "Cannot delete tasks while offline"
    ∧ ("Cannot update tasks while offline" : String) ≠ "Cannot delete tasks while offline" :=
  ⟨rfl, rfl, rfl, by decide, by decide, by decide⟩

/-- C6: every mutation applies its local-state and cache changes only after
the remote call has succeeded: on a remote error, the handler propagates
exactly that error and returns the state unchanged (having made its one
remote call); on success, the local item list reflects the mutation
(append for create, merge-by-id for update, filter-out for delete). -/
theorem mutations_confirm_then_apply (uid : String) (mounted : Bool) (e : String)
    (st : HookState) (now : Int) (t : Task) (taskId : String) :
    handleCreateTask false (some uid) mounted (Except.error e) st now
      = ⟨Except.error e, st, 1⟩
    ∧ handleUpdateTask false (some uid) mounted taskId (Except.error e) st now
      = ⟨Except.error e, st, 1⟩
    ∧ handleDeleteTask false (some uid) mounted taskId (Except.error e) st now
      = ⟨Except.error e, st, 1⟩
    ∧ (handleCreateTask false (some uid) true (Except.ok t) st now).result = Except.ok t
    ∧ (handleCreateTask false (some uid) true (Except.ok t) st now).state.tasks
        = st.tasks ++ [t]
    ∧ (handleUpdateTask false (some uid) true taskId (Except.ok t) st now).state.tasks
        = st.tasks.map (fun x => if x.id = taskId then mergeTask x t else x)
    ∧ (handleDeleteTask false (some uid) true taskId (Except.ok ()) st now).state.tasks
        = st.tasks.filter (fun x => !(x.id == taskId)) := by
  refine ⟨rfl, rfl, rfl, ?_, ?_, ?_, ?_⟩
  · cases h : alookup st.cache uid <;> simp [handleCreateTask, h]
  · cases h : alookup st.cache uid <;> simp [handleCreateTask, h]
  · cases h : alookup st.cache uid <;> simp [handleUpdateTask, h]
  · cases h : alookup st.cache uid <;> simp [handleDeleteTask, h]

theorem onFetchFailure_retryCount (st : HookState) (uid : String) (mounted : Bool)
    (cc : Option Bool) (m : String) (off : Bool) (j : Nat) :
    ((onFetchFailure st uid mounted cc m off j).1).retryCount = st.retryCount := by
  unfold onFetchFailure
  split
  · split
    · rfl
    · split
      · rfl
      · split <;> rfl
  · rfl

theorem onFetchFailure_loadingRef (st : HookState) (uid : String) (mounted : Bool)
    (cc : Option Bool) (m : String) (off : Bool) (j : Nat) :
    ((onFetchFailure st uid mounted cc m off j).1).loadingRef = st.loadingRef := by
  unfold onFetchFailure
  split
  · split
    · rfl
    · split
      · rfl
      · split <;> rfl
  · rfl

theorem onFetchFailure_delay (st : HookState) (uid : String) (cc : Option Bool)
    (m : String) (off : Bool) (j : Nat) :
    (onFetchFailure st uid true cc m off j).2 = none ∨
    (onFetchFailure st uid true cc m off j).2 = some (retryDelay st.retryCount j) := by
  unfold onFetchFailure
  split
  · split
    · left; rfl
    · split
      · right; rfl
      · split
        · left; rfl
        · left; rfl
  · left; rfl

theorem onFetchFailure_budget (st : HookState) (uid : String) (cc : Option Bool)
    (m : String) (off : Bool) (j : Nat)
    (h : ((onFetchFailure st uid true cc m off j).2).isSome = true) :
    st.retryCount < maxRetriesFor m ∧ off = false := by
  unfold onFetchFailure at h
  split at h
  · split at h
    · simp at h
    · split at h
      · next hcond => exact ⟨hcond.2, hcond.1⟩
      · split at h <;> simp at h
  · simp at h

theorem retryDelay_le_cap (rc j : Nat) : retryDelay rc j ≤ 15000 :=
  Nat.min_le_right _ _

theorem retryDelay_mono (rc j j' : Nat) (hj : j < 1000) :
    retryDelay rc j ≤ retryDelay (rc + 1) j' := by
  unfold retryDelay
  have hp : 1 ≤ 2 ^ rc := Nat.one_le_two_pow
  have h2 : 2 ^ (rc + 1) = 2 ^ rc + 2 ^ rc := by rw [pow_succ]; ring
  have hle : 1000 * 2 ^ rc + j ≤ 1000 * 2 ^ (rc + 1) + j' := by
    rw [h2]
    nlinarith
  exact min_le_min hle (le_refl 15000)

theorem failRetryStep_budget (uid m : String) (off : Bool) (j : Nat) (st : HookState)
    (h : st.retryCount ≤ maxRetriesFor m) :
    (failRetryStep uid m off j st).retryCount ≤ maxRetriesFor m := by
  cases hd : (onFetchFailure st uid true none m off j).2 with
  | none =>
    simp only [failRetryStep]
    rw [hd]
    simpa only [onFetchFailure_retryCount] using h
  | some d =>
    have hb := onFetchFailure_budget st uid none m off j (by rw [hd]; rfl)
    simp only [failRetryStep]
    rw [hd]
    simp only [onFetchFailure_retryCount]
    omega

theorem iterate_failRetryStep_budget (uid m : String) (off : Bool) (j : Nat) :
    ∀ (n : Nat) (st : HookState), st.retryCount ≤ maxRetriesFor m →
      (Nat.iterate (failRetryStep uid m off j) n st).retryCount ≤ maxRetriesFor m := by
  intro n
  induction n with
  | zero => intro st h; exact h
  | succ k ih =>
    intro st h
    rw [Function.iterate_succ_apply]
    exact ih _ (failRetryStep_budget uid m off j st h)

/-- C4: the retry machinery of `loadTasks`.  Whenever the failure handler
schedules a retry, the delay is exactly `min(1000 * 2^retryCount + jitter,
15000)`; for jitter below 1000 the delay sequence is non-decreasing in the
attempt number and never exceeds the 15 s cap; a retry is scheduled only
while online and while `retryCount` is below the budget — 5 for timeout
failures, 3 for any other failure — so over any number of failure rounds
the retry counter never exceeds the budget. -/
theorem backoff_bounds :
    (∀ (st : HookState) (uid : String) (cc : Option Bool) (m : String) (off : Bool)
        (j : Nat),
      (onFetchFailure st uid true cc m off j).2 = none ∨
      (onFetchFailure st uid true cc m off j).2 = some (retryDelay st.retryCount j))
    ∧ (∀ rc j j', j < 1000 → retryDelay rc j ≤ retryDelay (rc + 1) j')
    ∧ (∀ rc j, retryDelay rc j ≤ 15000)
    ∧ (∀ (st : HookState) (uid : String) (cc : Option Bool) (m : String) (off : Bool)
        (j : Nat),
      ((onFetchFailure st uid true cc m off j).2).isSome = true →
        st.retryCount < maxRetriesFor m ∧ off = false)
    ∧ maxRetriesFor "Task fetch timeout" = 5
    ∧ (∀ m, m ≠ "Task fetch timeout" → maxRetriesFor m = 3)
    ∧ (∀ (uid m : String) (off : Bool) (j n : Nat) (st : HookState),
        st.retryCount ≤ maxRetriesFor m →
        (Nat.iterate (failRetryStep uid m off j) n st).retryCount ≤ maxRetriesFor m) :=
  ⟨fun st uid cc m off j => onFetchFailure_delay st uid cc m off j,
   retryDelay_mono,
   retryDelay_le_cap,
   fun st uid cc m off j h => onFetchFailure_budget st uid cc m off j h,
   rfl,
   fun m hm => by simp [maxRetriesFor, MAX_RETRIES_OTHER, hm],
   fun uid m off j n st h => iterate_failRetryStep_budget uid m off j n st h⟩

/-- Witness for C4: attempt 2 with maximal jitter waits no longer than
attempt 3 with none; seven failure rounds from the initial state leave the
retry counter within the generic budget of 3. -/
theorem backoff_bounds_witness :
    retryDelay 2 500 ≤ retryDelay 3 0
    ∧ (Nat.iterate (failRetryStep "u1" "boom" false 0) 7 initialHookState).retryCount
        ≤ maxRetriesFor "boom"
    ∧ maxRetriesFor "boom" = 3 :=
  ⟨backoff_bounds.2.1 2 500 0 (by decide),
   backoff_bounds.2.2.2.2.2.2 "u1" "boom" false 0 7 initialHookState (by decide),
   backoff_bounds.2.2.2.2.2.1 "boom" (by decide)⟩

theorem loadPhase1_inflight_id (st : HookState) (uid : String) (now : Int)
    (h : st.loadingRef = true) :
    loadPhase1 st (some uid) false true now = (LoadDecision.skipInFlight, st) := by
  simp [loadPhase1, h]

theorem loadPhase1_skips_inflight (st : HookState) (uid : String) (now : Int)
    (h : st.loadingRef = true) :
    (loadPhase1 st (some uid) false true now).1 = LoadDecision.skipInFlight := by
  rw [loadPhase1_inflight_id st uid now h]

theorem loadPhase1_skips_throttled (st : HookState) (uid : String) (now : Int)
    (h : now - st.lastLoadTime < throttleFor st.tabSwitchRecovery) :
    (loadPhase1 st (some uid) false true now).1 = LoadDecision.skipInFlight ∨
    (loadPhase1 st (some uid) false true now).1 = LoadDecision.skipThrottle := by
  by_cases hl : st.loadingRef = true
  · exact Or.inl (loadPhase1_skips_inflight st uid now hl)
  · have hl' : st.loadingRef = false := by simpa using hl
    right
    simp [loadPhase1, hl', h]

theorem startFetchState_loadingRef (st : HookState) (uid : String)
    (force mounted : Bool) :
    ((startFetchState st uid force mounted).2).loadingRef = true := by
  simp only [startFetchState]
  split <;> rfl

theorem loadPhase1_startFetch_inflight (st : HookState) (uid : String) (now : Int)
    (h : (loadPhase1 st (some uid) false true now).1 = LoadDecision.startFetch) :
    ((loadPhase1 st (some uid) false true now).2).loadingRef = true := by
  by_cases h1 : st.loadingRef = true
  · rw [loadPhase1_inflight_id st uid now h1] at h
    simp at h
  · have h1' : st.loadingRef = false := by simpa using h1
    by_cases h2 : now - st.lastLoadTime < throttleFor st.tabSwitchRecovery
    · simp [loadPhase1, h1', h2] at h
    · cases hc : alookup st.cache uid with
      | some cd =>
        by_cases h3 : now - cd.timestamp < CACHE_TTL
        · simp [loadPhase1, h1', h2, hc, h3] at h
        · simp [loadPhase1, h1', h2, hc, h3, startFetchState_loadingRef]
      | none =>
        simp [loadPhase1, h1', h2, hc, startFetchState_loadingRef]

theorem onFetchSuccess_loadingRef (st : HookState) (uid : String)
    (mounted signalAborted : Bool) (data : List Task) (now : Int) :
    ((onFetchSuccess st uid mounted signalAborted data now)).loadingRef
      = st.loadingRef := by
  unfold onFetchSuccess
  split <;> rfl

theorem step_inflight (uid : String) (st : HookState) (e : HookEvent)
    (hok : evOk e = true) (h : st.loadingRef = true) :
    ((step uid st e).1).loadingRef = true ∧ (step uid st e).2 = 0 := by
  cases e with
  | load now force =>
    have hf : force = false := by
      revert hok
      cases force <;> simp [evOk]
    subst hf
    simp only [step]
    rw [loadPhase1_inflight_id st uid now h]
    exact ⟨h, by simp⟩
  | succeed data now =>
    refine ⟨?_, rfl⟩
    simp only [step]
    rw [show ({ onFetchSuccess st uid true false data now with
        loading := false } : HookState).loadingRef
      = (onFetchSuccess st uid true false data now).loadingRef from rfl]
    rw [onFetchSuccess_loadingRef]
    exact h
  | fail m off jj cc =>
    refine ⟨?_, rfl⟩
    simp only [step]
    rw [show ({ (onFetchFailure st uid true cc m off jj).1 with
        loading := false } : HookState).loadingRef
      = ((onFetchFailure st uid true cc m off jj).1).loadingRef from rfl]
    rw [onFetchFailure_loadingRef]
    exact h
  | retryFire => exact ⟨h, rfl⟩
  | clearInFlight => simp [evOk] at hok

theorem runTrace_inflight_zero (uid : String) :
    ∀ (es : List HookEvent) (st : HookState), es.all evOk = true →
      st.loadingRef = true → (runTrace uid st es).2 = 0 := by
  intro es
  induction es with
  | nil => intro st _ _; rfl
  | cons e tl ih =>
    intro st hall hl
    rw [List.all_cons, Bool.and_eq_true] at hall
    obtain ⟨hin, hz⟩ := step_inflight uid st e hall.1 hl
    simp only [runTrace]
    rw [hz, ih _ hall.2 hin]

theorem runTrace_le_one (uid : String) :
    ∀ (es : List HookEvent) (st : HookState), es.all evOk = true →
      (runTrace uid st es).2 ≤ 1 := by
  intro es
  induction es with
  | nil => intro st _; simp [runTrace]
  | cons e tl ih =>
    intro st hall
    rw [List.all_cons, Bool.and_eq_true] at hall
    by_cases hl : st.loadingRef = true
    · have h0 := runTrace_inflight_zero uid (e :: tl) st
        (by rw [List.all_cons, Bool.and_eq_true]; exact hall) hl
      omega
    · simp only [runTrace]
      cases e with
      | load now force =>
        have hf : force = false := by
          have h1 := hall.1
          revert h1
          cases force <;> simp [evOk]
        subst hf
        by_cases hd : (loadPhase1 st (some uid) false true now).1
            = LoadDecision.startFetch
        · have hin := loadPhase1_startFetch_inflight st uid now hd
          simp only [step]
          rw [if_pos hd, runTrace_inflight_zero uid tl _ hall.2 hin]
        · simp only [step]
          rw [if_neg hd]
          have hrest := ih ((loadPhase1 st (some uid) false true now).2) hall.2
          omega
      | succeed data now =>
        have hrest := ih ({ onFetchSuccess st uid true false data now with
          loading := false }) hall.2
        simp only [step]
        simpa using hrest
      | fail m off jj cc =>
        have hrest := ih ({ (onFetchFailure st uid true cc m off jj).1 with
          loading := false }) hall.2
        simp only [step]
        simpa using hrest
      | retryFire =>
        have hrest := ih ({ st with retryCount := st.retryCount + 1 }) hall.2
        simp only [step]
        simpa using hrest
      | clearInFlight => exact absurd hall.1 (by simp [evOk])

/-- C1: at-most-one-in-flight.  A non-forced load is skipped while a
request is in flight (`loadingRef`), and skipped while less than the
throttle window — 1000 ms in tab-switch recovery mode, 3000 ms otherwise —
has elapsed since the last successful load; consequently, over any batch of
events in which every load call is non-forced and no completion's grace
timer has yet cleared the in-flight marker, at most one load proceeds to a
network fetch. -/
theorem loadTasks_at_most_one_fetch :
    (∀ (st : HookState) (uid : String) (now : Int), st.loadingRef = true →
      (loadPhase1 st (some uid) false true now).1 = LoadDecision.skipInFlight)
    ∧ (∀ (st : HookState) (uid : String) (now : Int),
        now - st.lastLoadTime < throttleFor st.tabSwitchRecovery →
        (loadPhase1 st (some uid) false true now).1 = LoadDecision.skipInFlight ∨
        (loadPhase1 st (some uid) false true now).1 = LoadDecision.skipThrottle)
    ∧ (∀ (uid : String) (es : List HookEvent) (st : HookState),
        es.all evOk = true → (runTrace uid st es).2 ≤ 1) :=
  ⟨fun st uid now h => loadPhase1_skips_inflight st uid now h,
   fun st uid now h => loadPhase1_skips_throttled st uid now h,
   fun uid es st h => runTrace_le_one uid es st h⟩

/-- Witness for C1: three concurrent non-forced loads from an idle state
whose last load is long past; exactly the first one fetches. -/
theorem loadTasks_at_most_one_fetch_witness :
    (runTrace "u1" { initialHookState with lastLoadTime := -10000 }
      [HookEvent.load 0 false, HookEvent.load 1 false, HookEvent.load 2 false]).2 = 1
    ∧ (runTrace "u1" { initialHookState with lastLoadTime := -10000 }
      [HookEvent.load 0 false, HookEvent.load 1 false, HookEvent.load 2 false]).2 ≤ 1 :=
  ⟨by decide,
   loadTasks_at_most_one_fetch.2.2 "u1"
     [HookEvent.load 0 false, HookEvent.load 1 false, HookEvent.load 2 false]
     { initialHookState with lastLoadTime := -10000 } (by decide)⟩

end NestTask
